import Mathlib

/-!
Shallow embedding of the state-convergence orchestrator of the
openshift-cluster-manager-utils repository
(src/openshift_ai_manager/core/cluster_manager.py and
src/openshift_ai_manager/core/addon_manager.py, together with the typed
configuration models under src/openshift_ai_manager/models/).

External subprocess calls (the `ocm` and `oc` binaries) are modelled by
oracle arguments: a lookup oracle gives the stripped stdout of the
cluster-search command, a probe oracle gives the state string observed at
the k-th polling attempt, and so on.  Gateway-level process failures
(non-zero exit of a probe subprocess) are outside the embedded scope
except where the source itself catches them (the operator-readiness wait).
-/

namespace OCMUtils

/-- Python truthiness of an optional string field: `None` and the empty
string are falsy (this is exactly the `if self.cluster_id:` guard of
`ClusterManager._get_cluster_id`). -/
def pyTruthy : Option String → Bool
  | none => false
  | some s => !s.isEmpty

/-- Error raised by name resolution: `ValueError("Cluster not found: ...")`
in the source, the spec's `NotFound`. -/
inductive ResolveError where
  | notFound
  deriving DecidableEq, Repr

/-- Result of one `_get_cluster_id` call on a `ClusterManager`: the
returned identifier or the `NotFound` error, the value of the
`self.cluster_id` field after the call, and how many external lookup
commands (`ocm list clusters -p search=...`) were executed during the
call. -/
structure ResolveOut where
  result : Except ResolveError String
  cached : Option String
  lookups : Nat
  deriving Repr

/-- `ClusterManager._get_cluster_id` (cluster_manager.py lines 189-207).
`cached` is the current `self.cluster_id` field; `lookRes` is the stripped
stdout the search command for the requested name would produce.  The
source returns the cached field whenever it is truthy, without running any
command; otherwise it runs the search once, raises `ValueError` on empty
output, and caches a non-empty result. -/
def cmGetClusterId (cached : Option String) (lookRes : String) : ResolveOut :=
  if pyTruthy cached then
    { result := .ok (cached.getD ""), cached := cached, lookups := 0 }
  else if lookRes == "" then
    { result := .error .notFound, cached := cached, lookups := 1 }
  else
    { result := .ok lookRes, cached := some lookRes, lookups := 1 }

/-- `AddonManager._get_cluster_id` (addon_manager.py lines 316-330).
The `AddonManager` class has no `cluster_id` field: every call runs the
search command exactly once.  Returns the resolution result and the
number of external lookup commands executed. -/
def amGetClusterId (lookRes : String) : Except ResolveError String × Nat :=
  if lookRes == "" then (.error .notFound, 1) else (.ok lookRes, 1)

/-! ### Configuration model (models/cluster.py, models/credentials.py)

`cloud_provider` is `Literal["aws", "gcp"]` in the pydantic model, so it
is embedded as a two-valued enumeration. -/

inductive CloudProvider where
  | aws
  | gcp
  deriving DecidableEq, Repr

/-- Wire string of the provider (`config.cloud_provider`). -/
def CloudProvider.id : CloudProvider → String
  | .aws => "aws"
  | .gcp => "gcp"

structure AWSCredentials where
  accessKeyId : String
  secretAccessKey : String
  accountId : String
  deriving DecidableEq, Repr

structure GCPCredentials where
  projectId : String
  privateKeyId : String
  privateKey : String
  clientId : String
  clientEmail : String
  clientX509CertUrl : String
  authType : String
  authUri : String
  tokenUri : String
  authProviderX509CertUrl : String
  deriving DecidableEq, Repr

structure ClusterNodes where
  compute : Nat
  computeMachineType : String
  deriving DecidableEq, Repr

structure ClusterVersion where
  channelGroup : String
  id : Option String
  deriving DecidableEq, Repr

structure ClusterConfig where
  name : String
  cloudProvider : CloudProvider
  regionId : String
  version : ClusterVersion
  nodes : ClusterNodes
  fips : Bool
  multiAz : Bool
  team : String
  awsCredentials : Option AWSCredentials
  gcpCredentials : Option GCPCredentials
  deriving DecidableEq, Repr

/-- The `aws` block of the generated creation request body
(`spec["aws"]` in `_generate_cluster_spec`), including the
`tags: {team: ...}` entry. -/
structure AwsSpecBlock where
  accessKeyId : String
  secretAccessKey : String
  accountId : String
  tagsTeam : String
  deriving DecidableEq, Repr

/-- The `gcp` block of the generated creation request body
(`spec["gcp"]` in `_generate_cluster_spec`). -/
structure GcpSpecBlock where
  projectId : String
  privateKeyId : String
  privateKey : String
  clientId : String
  clientEmail : String
  clientX509CertUrl : String
  authType : String
  authUri : String
  tokenUri : String
  authProviderX509CertUrl : String
  deriving DecidableEq, Repr

/-- The creation request body built by
`ClusterManager._generate_cluster_spec` (cluster_manager.py lines
142-187).  An `Option` field rendered `none` models a key that is
entirely absent from the generated JSON document (the source only ever
conditionally assigns these keys; it never writes a null or empty
value for them). -/
structure ClusterSpec where
  name : String
  cloudProviderId : String
  channelGroup : String
  fips : Bool
  regionId : String
  multiAz : Bool
  productId : String
  ccsEnabled : Bool
  computeNodes : Nat
  computeMachineType : String
  versionId : Option String
  aws : Option AwsSpecBlock
  gcp : Option GcpSpecBlock
  deriving DecidableEq, Repr

/-- `ClusterManager._generate_cluster_spec`.  The credential blocks follow
the source's `if cloud_provider == "aws" and aws_credentials: ... elif
cloud_provider == "gcp" and gcp_credentials: ...` chain: the `aws` key is
added only in the first branch, the `gcp` key only in the second, and
neither when the selected provider's credential set is missing. -/
def generateClusterSpec (config : ClusterConfig) : ClusterSpec :=
  let base : ClusterSpec :=
    { name := config.name
      cloudProviderId := config.cloudProvider.id
      channelGroup := config.version.channelGroup
      fips := config.fips
      regionId := config.regionId
      multiAz := config.multiAz
      productId := "osd"
      ccsEnabled := true
      computeNodes := config.nodes.compute
      computeMachineType := config.nodes.computeMachineType
      versionId := config.version.id.map (fun v => "openshift-v" ++ v)
      aws := none
      gcp := none }
  match config.cloudProvider, config.awsCredentials with
  | .aws, some c =>
      let blk : AwsSpecBlock :=
        { accessKeyId := c.accessKeyId
          secretAccessKey := c.secretAccessKey
          accountId := c.accountId
          tagsTeam := config.team }
      { base with aws := some blk }
  | _, _ =>
    match config.cloudProvider, config.gcpCredentials with
    | .gcp, some g =>
        let blk : GcpSpecBlock :=
          { projectId := g.projectId
            privateKeyId := g.privateKeyId
            privateKey := g.privateKey
            clientId := g.clientId
            clientEmail := g.clientEmail
            clientX509CertUrl := g.clientX509CertUrl
            authType := g.authType
            authUri := g.authUri
            tokenUri := g.tokenUri
            authProviderX509CertUrl := g.authProviderX509CertUrl }
        { base with gcp := some blk }
    | _, _ => base

/-- The mutable state of a `ClusterManager` instance: its `self.cluster_id`
field (initialised to `None` in `__init__`). -/
structure CMState where
  clusterId : Option String
  deriving DecidableEq, Repr

/-- `ClusterManager.create_cluster` (cluster_manager.py lines 49-79),
identity-cache aspect: the generated spec is posted, the response JSON is
parsed, and `self.cluster_id = response.get("id")` is assigned
unconditionally; the assigned value is returned.  `responseId` is the
`id` field of the parsed creation response (`none` when the key is
absent). -/
def createCluster (st : CMState) (config : ClusterConfig) (responseId : Option String) :
    ClusterSpec × Option String × CMState :=
  (generateClusterSpec config, responseId, { st with clusterId := responseId })

/-! ### Convergence poller

`ClusterManager.wait_for_cluster_ready` (lines 81-104),
`AddonManager._wait_for_addon_ready` (lines 250-268) and
`AddonManager._wait_for_addon_uninstalled` (lines 270-286) share one loop
shape: `count = 0; while count <= timeout: state = probe(); if success:
return; if failure: raise; sleep(interval); count += interval`, followed
by `raise TimeoutError`.  `probe k` is the state string observed by the
k-th probe call.  The embedding counts probe calls and seconds slept;
`settle` is the unconditional extra `time.sleep` executed inside the
success branch (300 in `wait_for_cluster_ready`, 0 in the add-on waits,
where the settle sleep lives in the caller). -/

inductive PollResult where
  | converged (calls slept : Nat)
  | opFailed (state : String) (calls slept : Nat)
  | timedOut (calls slept : Nat)
  deriving DecidableEq, Repr

/-- Loop body of the shared polling shape.  `fuel` bounds the number of
remaining iterations; the wrapper `awaitState` passes `timeout + 1`,
which is sufficient whenever `interval` is positive (the source intervals
are the literals 60 and 10), so the fuel-exhaustion branch — which
mirrors the loop-exit `TimeoutError` — is only ever taken with
`count > timeout`. -/
def awaitAux (probe : Nat → String) (isSucc isFail : String → Bool)
    (interval settle timeout : Nat) : Nat → Nat → Nat → PollResult
  | 0, k, count => .timedOut k count
  | fuel + 1, k, count =>
    if count ≤ timeout then
      let s := probe k
      if isSucc s then .converged (k + 1) (count + settle)
      else if isFail s then .opFailed s (k + 1) count
      else awaitAux probe isSucc isFail interval settle timeout fuel (k + 1) (count + interval)
    else .timedOut k count

/-- The convergence poller of the spec: probe, success predicate, failure
predicate, poll interval, timeout (plus the settle sleep of the success
branch). -/
def awaitState (probe : Nat → String) (isSucc isFail : String → Bool)
    (interval settle timeout : Nat) : PollResult :=
  awaitAux probe isSucc isFail interval settle timeout (timeout + 1) 0 0

/-- `ClusterManager.wait_for_cluster_ready`: success state `"ready"`,
failure state `"error"` (raised as `RuntimeError`), interval 60, a 300
second stabilisation sleep inside the success branch, default timeout
7200. -/
def waitForClusterReady (probe : Nat → String) (timeout : Nat) : PollResult :=
  awaitState probe (fun s => s == "ready") (fun s => s == "error") 60 300 timeout

/-- `AddonManager._wait_for_addon_ready`: success `"ready"`, failure
`"failed"`, interval 60, no settle sleep inside the wait (the 300 second
settle is performed by `install_rhods` and `install_gpu_addon` after the
wait), default timeout 3600. -/
def waitForAddonReady (probe : Nat → String) (timeout : Nat) : PollResult :=
  awaitState probe (fun s => s == "ready") (fun s => s == "failed") 60 0 timeout

/-- `AddonManager._wait_for_addon_uninstalled`: success `"not installed"`,
no failure state, interval 60, default timeout 3600. -/
def waitForAddonUninstalled (probe : Nat → String) (timeout : Nat) : PollResult :=
  awaitState probe (fun s => s == "not installed") (fun _ => false) 60 0 timeout

/-! ### Deletion wait (absence is success) -/

/-- Errors a wait can propagate: the spec's `Timeout` (`TimeoutError` in
the source) and `OperationFailed` (`RuntimeError` on an explicit failure
state). -/
inductive PollError where
  | timeout
  | operationFailed (state : String)
  deriving DecidableEq, Repr

/-- Loop body of `ClusterManager._wait_for_cluster_deleted`
(cluster_manager.py lines 217-232): `count = 0; while count <= timeout:
try: self._get_cluster_id(name); sleep(60); count += 60; except
ValueError: return`, then `raise TimeoutError`.  Each attempt calls the
cache-aware `cmGetClusterId`; `look k` is the stripped search stdout the
k-th attempt would observe.  The fuel-exhaustion branch mirrors the
loop-exit `TimeoutError` and is only reached with `count > timeout`
(the wrapper passes fuel `timeout + 1` and the interval is 60). -/
def waitDeletedAux (look : Nat → String) (timeout : Nat) :
    Nat → Nat → Nat → Option String → Except PollError Unit × Option String
  | 0, _, _, cached => (.error .timeout, cached)
  | fuel + 1, k, count, cached =>
    if count ≤ timeout then
      match (cmGetClusterId cached (look k)).result with
      | .ok _ => waitDeletedAux look timeout fuel (k + 1) (count + 60)
          (cmGetClusterId cached (look k)).cached
      | .error _ => (.ok (), (cmGetClusterId cached (look k)).cached)
    else (.error .timeout, cached)

/-- `ClusterManager._wait_for_cluster_deleted`, started (as in the
source) with `count = 0`; `cached` is the `self.cluster_id` field at
entry.  Returns the outcome together with the final cache field. -/
def waitForClusterDeleted (look : Nat → String) (cached : Option String)
    (timeout : Nat) : Except PollError Unit × Option String :=
  waitDeletedAux look timeout (timeout + 1) 0 0 cached

/-- The `self.cluster_id` field held when the k-th resolution attempt of
the deletion wait starts (attempt 0 sees the entry value). -/
def delCacheAt (look : Nat → String) (cached : Option String) : Nat → Option String
  | 0 => cached
  | k + 1 => (cmGetClusterId (delCacheAt look cached k) (look k)).cached

/-- Whether the k-th `_get_cluster_id` call of the deletion wait raises
`NotFound` (`ValueError`), given the cache state it inherits from the
previous attempts. -/
def delResolveFailsAt (look : Nat → String) (cached : Option String) (k : Nat) : Bool :=
  match (cmGetClusterId (delCacheAt look cached k) (look k)).result with
  | .ok _ => false
  | .error _ => true

/-- Errors `delete_cluster` can propagate: the `NotFound` of its initial
resolution, or an error of the deletion wait. -/
inductive DeleteError where
  | notFound
  | poll (e : PollError)
  deriving DecidableEq, Repr

/-- `ClusterManager.delete_cluster` (lines 106-119): resolve the name
(raising `NotFound` when the search output is empty and the cache is not
truthy), submit the deletion, then run the deletion wait with the cache
state left by the resolution.  `look0` feeds the initial resolution;
`lookAt k` feeds the k-th wait attempt.  Returns the outcome and final
state. -/
def deleteCluster (look0 : String) (lookAt : Nat → String) (st : CMState)
    (timeout : Nat) : Except DeleteError Unit × CMState :=
  let r := cmGetClusterId st.clusterId look0
  match r.result with
  | .error _ => (.error .notFound, { st with clusterId := r.cached })
  | .ok _ =>
    let w := waitForClusterDeleted lookAt r.cached timeout
    (w.1.mapError .poll, { st with clusterId := w.2 })

/-! ### Operator-readiness wait (addon_manager.py lines 201-230) -/

/-- Python's substring test `needle in hay` on lists of characters. -/
def listContainsSub (needle : List Char) : List Char → Bool
  | [] => needle.isEmpty
  | c :: rest => needle.isPrefixOf (c :: rest) || listContainsSub needle rest

/-- Python's `needle in hay` on strings. -/
def strContainsSub (hay needle : String) : Bool :=
  listContainsSub needle.toList hay.toList

/-- Python's `str.lower()` restricted to ASCII case mapping, defined over
the character list so that it evaluates inside the kernel. -/
def pyLower (s : String) : String := ⟨s.data.map Char.toLower⟩

/-- One ClusterServiceVersion row of the `oc get csv -o json` output:
`metadata.name` and `status.phase`. -/
structure Csv where
  name : String
  phase : String
  deriving DecidableEq, Repr

/-- The CSV scan of one attempt of `_wait_for_operator_ready`: iterate
the items, and at the first item whose lowercased name contains the
operator name either report readiness (`phase == "Succeeded"`) or break
out of the scan. -/
def csvScanReady (operatorName : String) (items : List Csv) : Bool :=
  match items.find? (fun c => strContainsSub (pyLower c.name) operatorName) with
  | some c => c.phase == "Succeeded"
  | none => false

/-- Whether the k-th attempt of the operator wait observes readiness:
`csvProbe k = none` models a `CalledProcessError` of the `oc` call, which
the source catches and ignores. -/
def opAttemptReady (operatorName : String) (csvProbe : Nat → Option (List Csv))
    (k : Nat) : Bool :=
  match csvProbe k with
  | some items => csvScanReady operatorName items
  | none => false

/-- Outcome of the operator-readiness wait: the operator was observed
ready, or the wait ran out of budget and only *warned*
(`print("Warning: ... may not be fully ready")`) before returning
normally. -/
inductive OpReadyOutcome where
  | ready
  | warnedNotReady
  deriving DecidableEq, Repr

/-- Loop body of `AddonManager._wait_for_operator_ready`: `count = 0;
while count <= timeout:` run the CSV probe (swallowing
`CalledProcessError`), return on a ready scan, otherwise `sleep(10);
count += 10`; after the loop, print a warning and return normally — the
timeout case is *not* an error.  The result type is the same
`Except PollError` carrier as the other waits, making explicit that no
error value is ever produced.  Fuel exhaustion mirrors the loop exit and
is only reached with `count > timeout` (wrapper fuel `timeout + 1`,
interval 10). -/
def waitOpAux (operatorName : String) (csvProbe : Nat → Option (List Csv))
    (timeout : Nat) : Nat → Nat → Nat → Except PollError OpReadyOutcome
  | 0, _, _ => .ok .warnedNotReady
  | fuel + 1, k, count =>
    if count ≤ timeout then
      if opAttemptReady operatorName csvProbe k then .ok .ready
      else waitOpAux operatorName csvProbe timeout fuel (k + 1) (count + 10)
    else .ok .warnedNotReady

/-- `AddonManager._wait_for_operator_ready` (default timeout 300,
interval 10). -/
def waitForOperatorReady (operatorName : String) (csvProbe : Nat → Option (List Csv))
    (timeout : Nat) : Except PollError OpReadyOutcome :=
  waitOpAux operatorName csvProbe timeout (timeout + 1) 0 0

/-! ### Add-on orchestration flows (addon_manager.py) -/

/-- Externally visible gateway actions of the add-on flows, in execution
order: the cluster-name lookup, an `oc apply` of an operator
subscription, the completed (always-normal) operator-readiness wait, the
`ocm post .../addons` installation request, the completed add-on
readiness wait, the machine-pool listing probe, the
`ocm create machinepool` call, and a `time.sleep`. -/
inductive Ev where
  | lookupCluster (name : String)
  | opInstall (operatorName : String)
  | opWaitDone (operatorName : String)
  | addonInstallRequest (addonName : String)
  | addonWaitDone (addonName : String)
  | mpList
  | mpCreate (poolName : String)
  | sleepSecs (n : Nat)
  deriving DecidableEq, Repr

/-- The fixed dependency list of `_install_dependency_operators`
(addon_manager.py lines 163-167): (operator name, channel, catalog
source). -/
def dependencies : List (String × String × String) :=
  [("authorino-operator", "tech-preview-v1", "redhat-operators"),
   ("servicemeshoperator", "stable", "redhat-operators"),
   ("serverless-operator", "stable", "redhat-operators")]

/-- `AddonManager._install_dependency_operators` (lines 159-172): for
each dependency in order, apply the subscription
(`_install_operator`) and run the readiness wait — which always returns
normally — before moving to the next.  `csvProbes n` is the CSV probe
sequence observed while waiting for operator `n`.  Produces the event
trace. -/
def installDependencyOperators (csvProbes : String → Nat → Option (List Csv)) : List Ev :=
  dependencies.flatMap (fun d =>
    let w := waitForOperatorReady d.1 (csvProbes d.1) 300
    match w with
    | .ok _ => [Ev.opInstall d.1, Ev.opWaitDone d.1]
    | .error _ => [Ev.opInstall d.1])

/-- `RHODSConfig` (models/addons.py): addon identifier (default
`managed-odh`), notification email, and the install-dependencies flag. -/
structure RHODSConfig where
  addonName : String
  notificationEmail : String
  installDependencies : Bool
  deriving DecidableEq, Repr

/-- `AddonManager.install_rhods` (lines 19-55): resolve the cluster name
(no cache — one lookup), optionally fan out the three dependency
operators, post the add-on installation request, run the add-on
readiness wait (60s interval, 3600s timeout), and finish with the
unconditional 300 second settle sleep.  `look` is the stripped stdout of
the cluster search, `csvProbes` the per-operator CSV probes, and
`addonProbe` the add-on state probe.  Returns the outcome (resolution
`NotFound` or a propagated wait error) and the event trace. -/
def installRhods (clusterName : String) (look : String)
    (csvProbes : String → Nat → Option (List Csv)) (addonProbe : Nat → String)
    (config : RHODSConfig) : Except DeleteError Unit × List Ev :=
  match (amGetClusterId look).1 with
  | .error _ => (.error .notFound, [Ev.lookupCluster clusterName])
  | .ok _ =>
    let depEvents := if config.installDependencies
      then installDependencyOperators csvProbes else []
    let pre := Ev.lookupCluster clusterName :: depEvents
        ++ [Ev.addonInstallRequest config.addonName]
    match waitForAddonReady addonProbe 3600 with
    | .converged _ _ =>
        (.ok (), pre ++ [Ev.addonWaitDone config.addonName, Ev.sleepSecs 300])
    | .opFailed s _ _ => (.error (.poll (.operationFailed s)), pre)
    | .timedOut _ _ => (.error (.poll .timeout), pre)

/-- `MachinePoolConfig` (models/machine_pool.py). -/
structure MachinePoolConfig where
  name : String
  instanceType : String
  nodeCount : Nat
  reuseExisting : Bool
  deriving DecidableEq, Repr

/-- `AddonManager._machine_pool_exists` (lines 306-314): list the
cluster's machine pools and test `pool_name in result.stdout` — a
substring match against the raw listing text. -/
def machinePoolExists (listing : String) (poolName : String) : Bool :=
  strContainsSub listing poolName

/-- `AddonManager.add_machine_pool` (lines 82-106): resolve the cluster
name; if `reuse_existing` and the listing probe finds the pool name,
return immediately (no creation, no sleep); otherwise run
`ocm create machinepool` and sleep an unconditional 60 seconds.  The
listing probe runs only when `reuse_existing` is set (Python `and`
short-circuit).  Returns the outcome and the event trace. -/
def addMachinePool (clusterName : String) (look : String) (listing : String)
    (config : MachinePoolConfig) : Except ResolveError Unit × List Ev :=
  match (amGetClusterId look).1 with
  | .error _ => (.error .notFound, [Ev.lookupCluster clusterName])
  | .ok _ =>
    if config.reuseExisting then
      if machinePoolExists listing config.name then
        (.ok (), [Ev.lookupCluster clusterName, Ev.mpList])
      else
        (.ok (), [Ev.lookupCluster clusterName, Ev.mpList,
                  Ev.mpCreate config.name, Ev.sleepSecs 60])
    else
      (.ok (), [Ev.lookupCluster clusterName,
                Ev.mpCreate config.name, Ev.sleepSecs 60])

/-- Total seconds slept along a trace. -/
def totalSleep : List Ev → Nat
  | [] => 0
  | Ev.sleepSecs n :: rest => n + totalSleep rest
  | _ :: rest => totalSleep rest

/-- Number of `ocm create machinepool` calls in a trace. -/
def mpCreateCount (tr : List Ev) : Nat :=
  (tr.filter (fun e => match e with | Ev.mpCreate _ => true | _ => false)).length

/-! ### Temporary request-body files

`create_cluster` (lines 56-79), `_install_addon` (lines 232-248) and
`_install_operator` (lines 191-199) each write a request body to a fresh
`NamedTemporaryFile(delete=False)`, run a subprocess inside `try:`, and
remove the file in `finally: Path(temp_file).unlink(missing_ok=True)`.
The filesystem is modelled as the list of present file names; the body
of the `try:` block is an oracle outcome (its success value, or the
exception it raises). -/

/-- Error raised inside the `try:` body: a non-zero subprocess exit
(`CalledProcessError`) or unparsable JSON output
(`json.JSONDecodeError`). -/
inductive CmdError where
  | commandFailed
  | malformedResponse
  deriving DecidableEq, Repr

/-- File-effect of `ClusterManager.create_cluster`: the temp file holding
the generated spec exists for the duration of the `try:` body (the `ocm
post` and the response parse, whose combined outcome is `body`), and the
`finally:` block removes it on every exit path. -/
def createClusterTempEffect (fs : List String) (tmp : String)
    (body : Except CmdError (Option String)) :
    Except CmdError (Option String) × List String :=
  let fsCreated := tmp :: fs
  (body, fsCreated.erase tmp)

/-- File-effect of `AddonManager._install_addon`: temp file with the
add-on spec, `ocm post` inside `try:`, unlink in `finally:`. -/
def installAddonTempEffect (fs : List String) (tmp : String)
    (body : Except CmdError Unit) : Except CmdError Unit × List String :=
  let fsCreated := tmp :: fs
  (body, fsCreated.erase tmp)

/-- File-effect of `AddonManager._install_operator`: temp file with the
subscription manifest, `oc apply -f` inside `try:`, unlink in
`finally:`. -/
def installOperatorTempEffect (fs : List String) (tmp : String)
    (body : Except CmdError Unit) : Except CmdError Unit × List String :=
  let fsCreated := tmp :: fs
  (body, fsCreated.erase tmp)

/-! ## Theorems -/

/-- A concrete aws desired state used by witnesses (the spec's §8
end-to-end example: name `demo`, region `us-east-1`, 3 compute nodes of
type `m5.2xlarge`). -/
def awsDemoConfig : ClusterConfig :=
  { name := "demo"
    cloudProvider := .aws
    regionId := "us-east-1"
    version := { channelGroup := "stable", id := none }
    nodes := { compute := 3, computeMachineType := "m5.2xlarge" }
    fips := false
    multiAz := false
    team := "team-a"
    awsCredentials := some
      { accessKeyId := "AK", secretAccessKey := "SK", accountId := "42" }
    gcpCredentials := none }

/-- C4: for every cluster desired state whose credential-set presence
matches its cloud provider, the generated creation request body contains
an `aws` credential block and no `gcp` block when the provider is aws,
and a `gcp` block and no `aws` block when the provider is gcp; the
non-selected provider's key is entirely absent (`none`). -/
theorem c4_provider_determines_credential_blocks (config : ClusterConfig)
    (hmatch : (config.cloudProvider = .aws → config.awsCredentials.isSome)
      ∧ (config.cloudProvider = .gcp → config.gcpCredentials.isSome)) :
    (config.cloudProvider = .aws →
      (generateClusterSpec config).aws.isSome ∧ (generateClusterSpec config).gcp = none)
    ∧ (config.cloudProvider = .gcp →
      (generateClusterSpec config).gcp.isSome ∧ (generateClusterSpec config).aws = none) := by
  obtain ⟨ha, hg⟩ := hmatch
  constructor
  · intro hp
    have := ha hp
    cases hac : config.awsCredentials with
    | none => rw [hac] at this; simp at this
    | some c => simp [generateClusterSpec, hp, hac]
  · intro hp
    have := hg hp
    cases hgc : config.gcpCredentials with
    | none => rw [hgc] at this; simp at this
    | some g =>
      cases hac : config.awsCredentials with
      | none => simp [generateClusterSpec, hp, hac, hgc]
      | some c => simp [generateClusterSpec, hp, hac, hgc]

/-- Witness for C4 at a concrete aws and a concrete gcp configuration. -/
theorem c4_witness :
    ((awsDemoConfig.cloudProvider = .aws → awsDemoConfig.awsCredentials.isSome)
      ∧ (awsDemoConfig.cloudProvider = .gcp → awsDemoConfig.gcpCredentials.isSome))
    ∧ ((awsDemoConfig.cloudProvider = .aws →
          (generateClusterSpec awsDemoConfig).aws.isSome
          ∧ (generateClusterSpec awsDemoConfig).gcp = none)
        ∧ (awsDemoConfig.cloudProvider = .gcp →
          (generateClusterSpec awsDemoConfig).gcp.isSome
          ∧ (generateClusterSpec awsDemoConfig).aws = none)) :=
  ⟨⟨by decide, by decide⟩,
    c4_provider_determines_credential_blocks awsDemoConfig ⟨by decide, by decide⟩⟩

/-- C10: for every call that writes a request body to a temporary file
(cluster creation, add-on installation, operator subscription apply), the
temporary file is absent from the filesystem after the call completes,
whatever the outcome of the `try:` body — normal return, subprocess
failure, or any other raised exception; in fact the filesystem is
exactly as before the call. -/
theorem c10_temp_file_absent_on_every_exit_path (fs : List String) (tmp : String)
    (htmp : tmp ∉ fs) (bodyC : Except CmdError (Option String))
    (bodyA bodyO : Except CmdError Unit) :
    ((createClusterTempEffect fs tmp bodyC).2 = fs
      ∧ tmp ∉ (createClusterTempEffect fs tmp bodyC).2)
    ∧ ((installAddonTempEffect fs tmp bodyA).2 = fs
      ∧ tmp ∉ (installAddonTempEffect fs tmp bodyA).2)
    ∧ ((installOperatorTempEffect fs tmp bodyO).2 = fs
      ∧ tmp ∉ (installOperatorTempEffect fs tmp bodyO).2) := by
  have herase : (tmp :: fs).erase tmp = fs := by
    simp [List.erase_cons_head]
  refine ⟨⟨?_, ?_⟩, ⟨?_, ?_⟩, ⟨?_, ?_⟩⟩ <;>
    simp [createClusterTempEffect, installAddonTempEffect,
      installOperatorTempEffect, herase, htmp]

/-- Witness for C10: concrete filesystem, temp name, and one raising and
one succeeding body. -/
theorem c10_witness :
    ("tmp1" ∉ (["other.json"] : List String))
    ∧ (((createClusterTempEffect ["other.json"] "tmp1" (.error .commandFailed)).2
          = ["other.json"]
        ∧ "tmp1" ∉ (createClusterTempEffect ["other.json"] "tmp1"
            (.error .commandFailed)).2)
      ∧ ((installAddonTempEffect ["other.json"] "tmp1" (.ok ())).2 = ["other.json"]
        ∧ "tmp1" ∉ (installAddonTempEffect ["other.json"] "tmp1" (.ok ())).2)
      ∧ ((installOperatorTempEffect ["other.json"] "tmp1"
            (.error .commandFailed)).2 = ["other.json"]
        ∧ "tmp1" ∉ (installOperatorTempEffect ["other.json"] "tmp1"
            (.error .commandFailed)).2)) :=
  ⟨by decide,
    c10_temp_file_absent_on_every_exit_path ["other.json"] "tmp1" (by decide)
      (.error .commandFailed) (.ok ()) (.error .commandFailed)⟩

/-- C2 counterexample: the claim asserts that *every* resolver instance
caches a successful resolution so that subsequent calls perform zero
external lookups and return the previously resolved identifier.
`AddonManager._get_cluster_id` keeps no cache: after a successful
resolution (returning `id-1`), a later call on the same instance still
performs one lookup (not zero) and returns whatever the fresh lookup
yields (`id-2`, not the previously resolved `id-1`). -/
theorem c2_counterexample :
    (amGetClusterId "id-1").1 = .ok "id-1" ∧ (amGetClusterId "id-1").2 = 1
    ∧ (amGetClusterId "id-2").1 = .ok "id-2" ∧ (amGetClusterId "id-2").2 = 1
    ∧ (1 : Nat) ≠ 0 ∧ ("id-2" : String) ≠ "id-1" :=
  ⟨rfl, rfl, rfl, rfl, by decide, by decide⟩

/-- C2 amended: `ClusterManager`'s resolver caches a successful
resolution for the lifetime of the instance — every subsequent call
performs zero external lookups and returns the cached identifier, and
nothing but process restart clears the field — while `AddonManager`'s
resolver performs exactly one external lookup on every call. -/
theorem c2_amended_resolution_caching (cached : Option String) (lookRes : String)
    (hmiss : pyTruthy cached = false) (hfound : lookRes ≠ "") :
    cmGetClusterId cached lookRes
        = { result := .ok lookRes, cached := some lookRes, lookups := 1 }
    ∧ (∀ lookRes2, cmGetClusterId (some lookRes) lookRes2
        = { result := .ok lookRes, cached := some lookRes, lookups := 0 })
    ∧ (∀ lookRes3, (amGetClusterId lookRes3).2 = 1) := by
  have htr : pyTruthy (some lookRes) = true := by
    simp [pyTruthy, Bool.eq_false_iff, String.isEmpty_iff, hfound]
  refine ⟨?_, fun lookRes2 => ?_, fun lookRes3 => ?_⟩
  · simp [cmGetClusterId, hmiss, hfound]
  · simp [cmGetClusterId, htr]
  · simp [amGetClusterId]
    split <;> rfl

/-- Witness for C2's amended theorem at a concrete empty cache and
lookup result. -/
theorem c2_amended_witness :
    (pyTruthy none = false ∧ ("cid-7" : String) ≠ "")
    ∧ (cmGetClusterId none "cid-7"
          = { result := .ok "cid-7", cached := some "cid-7", lookups := 1 }
      ∧ (∀ lookRes2, cmGetClusterId (some "cid-7") lookRes2
          = { result := .ok "cid-7", cached := some "cid-7", lookups := 0 })
      ∧ (∀ lookRes3, (amGetClusterId lookRes3).2 = 1)) :=
  ⟨⟨by decide, by decide⟩,
    c2_amended_resolution_caching none "cid-7" (by decide) (by decide)⟩

/-- C3: the `ClusterManager` identity cache is a single field not keyed
by name: (a) a successful `create_cluster` stores the returned id in the
field; (b) a successful resolution stores the resolved id; (c) once the
field holds a non-empty id, every later `_get_cluster_id` call — for any
name argument, hence any lookup outcome that name's search would
produce — returns that single cached identifier, performs zero external
lookups, and never raises `NotFound`. -/
theorem c3_identity_cache_not_keyed_by_name (st : CMState) (config : ClusterConfig)
    (cid : String) (hne : cid ≠ "") (lookRes : String) :
    (createCluster st config (some cid)).2.2.clusterId = some cid
    ∧ (pyTruthy st.clusterId = false → lookRes ≠ "" →
        (cmGetClusterId st.clusterId lookRes).cached = some lookRes)
    ∧ (∀ lookAny, cmGetClusterId (some cid) lookAny
        = { result := .ok cid, cached := some cid, lookups := 0 }) := by
  have htr : pyTruthy (some cid) = true := by
    simp [pyTruthy, Bool.eq_false_iff, String.isEmpty_iff, hne]
  refine ⟨rfl, fun hmiss hfound => ?_, fun lookAny => ?_⟩
  · simp [cmGetClusterId, hmiss, hfound]
  · simp [cmGetClusterId, htr]

/-- Witness for C3 at a concrete state, configuration, and id. -/
theorem c3_witness :
    (("cid-9" : String) ≠ "")
    ∧ ((createCluster { clusterId := none } awsDemoConfig (some "cid-9")).2.2.clusterId
          = some "cid-9"
      ∧ (pyTruthy ({ clusterId := none } : CMState).clusterId = false → ("xyz" : String) ≠ "" →
          (cmGetClusterId ({ clusterId := none } : CMState).clusterId "xyz").cached
            = some "xyz")
      ∧ (∀ lookAny, cmGetClusterId (some "cid-9") lookAny
          = { result := .ok "cid-9", cached := some "cid-9", lookups := 0 })) :=
  ⟨by decide,
    c3_identity_cache_not_keyed_by_name { clusterId := none } awsDemoConfig "cid-9"
      (by decide) "xyz"⟩

/-- The concrete machine-pool configuration of the C9 witness instance
(the model defaults of `MachinePoolConfig`). -/
def gpuPoolConfig : MachinePoolConfig :=
  { name := "gpunode", instanceType := "g4dn.xlarge", nodeCount := 1,
    reuseExisting := true }

/-- C9: with `reuse_existing` set and the requested pool name already
present in the machine-pool listing, `add_machine_pool` performs zero
creation calls and sleeps zero seconds (returns immediately); and at a
concrete input whose listing does not contain the pool, it performs
exactly one creation call followed by the fixed unconditional 60-second
sleep. -/
theorem c9_machine_pool_reuse_short_circuit :
    (∀ clusterName look listing config,
      look ≠ "" → config.reuseExisting = true →
      machinePoolExists listing config.name = true →
      mpCreateCount (addMachinePool clusterName look listing config).2 = 0
      ∧ totalSleep (addMachinePool clusterName look listing config).2 = 0)
    ∧ (addMachinePool "demo" "cid-1" "NAME REPLICAS INSTANCE-TYPE" gpuPoolConfig).2
        = [Ev.lookupCluster "demo", Ev.mpList, Ev.mpCreate "gpunode", Ev.sleepSecs 60] := by
  constructor
  · intro clusterName look listing config hlook hreuse hexists
    have hl : (look == "") = false := by
      simp [hlook]
    simp [addMachinePool, amGetClusterId, hl, hreuse, hexists, mpCreateCount, totalSleep]
  · rfl

/-- Witness for the universally quantified part of C9 at a concrete
matching listing. -/
theorem c9_witness :
    (("cid-1" : String) ≠ "" ∧ gpuPoolConfig.reuseExisting = true
      ∧ machinePoolExists "NAME gpunode 1 g4dn.xlarge" gpuPoolConfig.name = true)
    ∧ (mpCreateCount (addMachinePool "demo" "cid-1" "NAME gpunode 1 g4dn.xlarge"
          gpuPoolConfig).2 = 0
      ∧ totalSleep (addMachinePool "demo" "cid-1" "NAME gpunode 1 g4dn.xlarge"
          gpuPoolConfig).2 = 0) :=
  ⟨⟨by decide, by decide, by decide⟩,
    c9_machine_pool_reuse_short_circuit.1 "demo" "cid-1" "NAME gpunode 1 g4dn.xlarge"
      gpuPoolConfig (by decide) (by decide) (by decide)⟩

/-- Loop invariant of the shared polling shape when no probe state ever
matches a predicate: started at attempt k (elapsed `k * interval`) with
enough fuel, the loop probes at every elapsed multiple of `interval` up
to and including the last one that is `≤ timeout`, then reports
`timedOut` with `timeout / interval + 1` probe calls made and
`(timeout / interval + 1) * interval` seconds slept. -/
theorem awaitAux_never_terminal (probe : Nat → String) (isSucc isFail : String → Bool)
    (interval settle timeout : Nat) (hi : 0 < interval)
    (hnone : ∀ m, isSucc (probe m) = false ∧ isFail (probe m) = false) :
    ∀ fuel k, timeout + 1 ≤ fuel + k * interval → k ≤ timeout / interval + 1 →
    awaitAux probe isSucc isFail interval settle timeout fuel k (k * interval)
      = .timedOut (timeout / interval + 1) ((timeout / interval + 1) * interval) := by
  intro fuel
  induction fuel with
  | zero =>
    intro k hfuel hk
    have hgt : timeout < k * interval := by omega
    have hk2 : timeout / interval + 1 ≤ k := by
      by_contra hlt
      have : k ≤ timeout / interval := by omega
      have := (Nat.le_div_iff_mul_le hi).mp this
      omega
    have hkeq : k = timeout / interval + 1 := le_antisymm hk hk2
    simp [awaitAux, hkeq]
  | succ n ih =>
    intro k hfuel hk
    by_cases hcount : k * interval ≤ timeout
    · have hk3 : k ≤ timeout / interval := (Nat.le_div_iff_mul_le hi).mpr hcount
      have step : awaitAux probe isSucc isFail interval settle timeout (n + 1) k (k * interval)
          = awaitAux probe isSucc isFail interval settle timeout n (k + 1)
              (k * interval + interval) := by
        simp [awaitAux, hcount, (hnone k).1, (hnone k).2]
      rw [step]
      have harg : k * interval + interval = (k + 1) * interval := by ring
      rw [harg]
      exact ih (k + 1) (by omega) (by omega)
    · have hk2 : timeout / interval + 1 ≤ k := by
        by_contra hlt
        have : k ≤ timeout / interval := by omega
        have := (Nat.le_div_iff_mul_le hi).mp this
        omega
      have hkeq : k = timeout / interval + 1 := le_antisymm hk hk2
      subst hkeq
      simp only [awaitAux]
      rw [if_neg hcount]

/-- Loop invariant of the shared polling shape when the first
terminal-predicate match is a failure at attempt j within budget: the
loop reaches attempt j and raises `OperationFailed` there, having made
`j + 1` probe calls and slept `j * interval` seconds — the settle sleep
of the success branch never runs. -/
theorem awaitAux_first_failure (probe : Nat → String) (isSucc isFail : String → Bool)
    (interval settle timeout j : Nat)
    (hpre : ∀ m, m < j → isSucc (probe m) = false ∧ isFail (probe m) = false)
    (hjs : isSucc (probe j) = false) (hjf : isFail (probe j) = true)
    (hbudget : j * interval ≤ timeout) :
    ∀ fuel k, k ≤ j → j + 1 ≤ fuel + k →
    awaitAux probe isSucc isFail interval settle timeout fuel k (k * interval)
      = .opFailed (probe j) (j + 1) (j * interval) := by
  intro fuel
  induction fuel with
  | zero =>
    intro k hk hfuel
    omega
  | succ n ih =>
    intro k hk hfuel
    have hcount : k * interval ≤ timeout :=
      le_trans (Nat.mul_le_mul_right interval hk) hbudget
    rcases Nat.lt_or_ge k j with hlt | hge
    · have step : awaitAux probe isSucc isFail interval settle timeout (n + 1) k (k * interval)
          = awaitAux probe isSucc isFail interval settle timeout n (k + 1)
              (k * interval + interval) := by
        simp [awaitAux, hcount, (hpre k hlt).1, (hpre k hlt).2]
      rw [step]
      have harg : k * interval + interval = (k + 1) * interval := by ring
      rw [harg]
      exact ih (k + 1) (by omega) (by omega)
    · have hkeq : k = j := le_antisymm hk hge
      subst hkeq
      simp [awaitAux, hcount, hjs, hjf]

/-- C5 counterexample: the claim requires that the convergence wait loops
while elapsed < timeout and performs no probe call once the accumulated
elapsed time has reached the timeout.  At interval 60 and timeout 60 with
a probe that never reaches a terminal state, the loop (`while count <=
timeout`) makes a second probe call at elapsed 60 — exactly when the
elapsed time has reached the timeout — before failing with Timeout after
120 accumulated seconds. -/
theorem c5_counterexample :
    awaitState (fun _ => "pending") (fun s => s == "ready") (fun s => s == "error")
        60 300 60 = PollResult.timedOut 2 120
    ∧ ¬(∀ j, j < 2 → j * 60 < 60) := by
  refine ⟨by decide, fun h => ?_⟩
  have := h 1 (by omega)
  omega

/-- C5 amended: with poll interval i > 0 and timeout T, a convergence
wait whose probe never returns a success or failure state loops while
elapsed ≤ T (elapsed accumulated in increments of i): it makes exactly
T / i + 1 probe calls, one at each elapsed multiple of i not exceeding T,
and then fails with Timeout, at which point the accumulated elapsed time
(T / i + 1) · i exceeds T for the first time — never earlier. -/
theorem c5_amended_timeout_at_boundary (probe : Nat → String)
    (isSucc isFail : String → Bool) (interval settle timeout : Nat)
    (hi : 0 < interval)
    (hnone : ∀ m, isSucc (probe m) = false ∧ isFail (probe m) = false) :
    awaitState probe isSucc isFail interval settle timeout
      = .timedOut (timeout / interval + 1) ((timeout / interval + 1) * interval)
    ∧ (∀ j, j ≤ timeout / interval → j * interval ≤ timeout)
    ∧ timeout < (timeout / interval + 1) * interval := by
  refine ⟨?_, ?_, ?_⟩
  · have h0 : (0 : Nat) * interval = 0 := by ring
    have := awaitAux_never_terminal probe isSucc isFail interval settle timeout hi hnone
      (timeout + 1) 0 (by omega) (Nat.zero_le _)
    rw [h0] at this
    exact this
  · intro j hj
    exact (Nat.le_div_iff_mul_le hi).mp hj
  · have hmlt : timeout % interval < interval := Nat.mod_lt timeout hi
    calc timeout = interval * (timeout / interval) + timeout % interval :=
          (Nat.div_add_mod timeout interval).symm
      _ < interval * (timeout / interval) + interval :=
          Nat.add_lt_add_left hmlt (interval * (timeout / interval))
      _ = (timeout / interval + 1) * interval := by ring

/-- Probe of the C5 amended witness: a state that never matches a
terminal predicate. -/
def pendingProbe : Nat → String := fun _ => "pending"

/-- Witness for C5's amended theorem at interval 60, settle 300,
timeout 90, and the constant probe `"pending"`. -/
theorem c5_amended_witness :
    ((0 : Nat) < 60
      ∧ (∀ m : Nat, (pendingProbe m == "ready") = false
          ∧ (pendingProbe m == "error") = false))
    ∧ (awaitState pendingProbe (fun s => s == "ready") (fun s => s == "error")
          60 300 90 = .timedOut (90 / 60 + 1) ((90 / 60 + 1) * 60)
      ∧ (∀ j, j ≤ 90 / 60 → j * 60 ≤ 90)
      ∧ 90 < (90 / 60 + 1) * 60) :=
  ⟨⟨by decide, fun m => ⟨rfl, rfl⟩⟩,
    c5_amended_timeout_at_boundary pendingProbe (fun s => s == "ready")
      (fun s => s == "error") 60 300 90 (by decide)
      (fun m => ⟨rfl, rfl⟩)⟩

/-- C6: when the probe first returns the failure state at step k = j + 1
(0-indexed attempt j) within the timeout budget, the convergence wait
fails with OperationFailed after exactly k probe calls regardless of the
remaining budget, having slept only the j poll intervals — no settle
delay: the cluster wait's 300-second stabilisation sleep, which lives in
the success branch, does not run (slept is j·60, not j·60 + 300), and
the add-on wait likewise returns after j·60 slept seconds. -/
theorem c6_opfailed_after_exactly_k_calls (probeC probeA : Nat → String)
    (jC jA timeoutC timeoutA : Nat)
    (hpreC : ∀ m, m < jC → probeC m ≠ "ready" ∧ probeC m ≠ "error")
    (hjC : probeC jC = "error") (hbC : jC * 60 ≤ timeoutC)
    (hpreA : ∀ m, m < jA → probeA m ≠ "ready" ∧ probeA m ≠ "failed")
    (hjA : probeA jA = "failed") (hbA : jA * 60 ≤ timeoutA) :
    waitForClusterReady probeC timeoutC = .opFailed "error" (jC + 1) (jC * 60)
    ∧ waitForAddonReady probeA timeoutA = .opFailed "failed" (jA + 1) (jA * 60) := by
  constructor
  · have h := awaitAux_first_failure probeC (fun s => s == "ready")
      (fun s => s == "error") 60 300 timeoutC jC
      (fun m hm => ⟨by simp [(hpreC m hm).1], by simp [(hpreC m hm).2]⟩)
      (by simp [hjC]) (by simp [hjC]) hbC (timeoutC + 1) 0 (by omega)
      (by omega)
    have h0 : (0 : Nat) * 60 = 0 := by ring
    rw [h0] at h
    rw [waitForClusterReady, awaitState, h, hjC]
  · have h := awaitAux_first_failure probeA (fun s => s == "ready")
      (fun s => s == "failed") 60 0 timeoutA jA
      (fun m hm => ⟨by simp [(hpreA m hm).1], by simp [(hpreA m hm).2]⟩)
      (by simp [hjA]) (by simp [hjA]) hbA (timeoutA + 1) 0 (by omega)
      (by omega)
    have h0 : (0 : Nat) * 60 = 0 := by ring
    rw [h0] at h
    rw [waitForAddonReady, awaitState, h, hjA]

/-- Probe of the C6 witness: `installing` at the first call, `error`
afterwards. -/
def clusterErrProbe : Nat → String
  | 0 => "installing"
  | _ + 1 => "error"

/-- Witness for C6: the cluster probe reports `installing` then `error`
(failure at the second call), the add-on probe reports `failed`
immediately. -/
theorem c6_witness :
    ((∀ m, m < 1 → clusterErrProbe m ≠ "ready" ∧ clusterErrProbe m ≠ "error")
      ∧ clusterErrProbe 1 = "error" ∧ 1 * 60 ≤ 7200
      ∧ (∀ m, m < 0 → ("failed" : String) ≠ "ready" ∧ ("failed" : String) ≠ "failed")
      ∧ ("failed" : String) = "failed" ∧ 0 * 60 ≤ 3600)
    ∧ (waitForClusterReady clusterErrProbe 7200 = .opFailed "error" (1 + 1) (1 * 60)
      ∧ waitForAddonReady (fun _ => "failed") 3600 = .opFailed "failed" (0 + 1) (0 * 60)) :=
  ⟨⟨fun m hm => by
      have hm0 : m = 0 := by omega
      subst hm0
      exact ⟨by decide, by decide⟩,
      by decide, by decide, fun m hm => absurd hm (by omega), rfl, by decide⟩,
    c6_opfailed_after_exactly_k_calls clusterErrProbe (fun _ => "failed") 1 0 7200 3600
      (fun m hm => by
      have hm0 : m = 0 := by omega
      subst hm0
      exact ⟨by decide, by decide⟩)
      (by decide) (by decide) (fun m hm => absurd hm (by omega)) rfl (by decide)⟩

/-- The operator-readiness loop never produces an error value, whatever
the probe reports: every exit is a normal return. -/
theorem waitOpAux_isOk (operatorName : String) (csvProbe : Nat → Option (List Csv))
    (timeout : Nat) :
    ∀ fuel k count, ∃ o,
      waitOpAux operatorName csvProbe timeout fuel k count = .ok o := by
  intro fuel
  induction fuel with
  | zero => intro k count; exact ⟨.warnedNotReady, rfl⟩
  | succ n ih =>
    intro k count
    by_cases hc : count ≤ timeout
    · by_cases hr : opAttemptReady operatorName csvProbe k = true
      · exact ⟨.ready, by simp [waitOpAux, hc, hr]⟩
      · obtain ⟨o, ho⟩ := ih (k + 1) (count + 10)
        exact ⟨o, by simp [waitOpAux, hc, hr, ho]⟩
    · exact ⟨.warnedNotReady, by simp [waitOpAux, hc]⟩

/-- `_wait_for_operator_ready` never errors at the top level either. -/
theorem waitForOperatorReady_isOk (operatorName : String)
    (csvProbe : Nat → Option (List Csv)) (timeout : Nat) :
    ∃ o, waitForOperatorReady operatorName csvProbe timeout = .ok o :=
  waitOpAux_isOk operatorName csvProbe timeout (timeout + 1) 0 0

/-- When no in-budget attempt observes readiness, the loop runs out of
budget and returns the warned outcome. -/
theorem waitOpAux_never_ready (operatorName : String)
    (csvProbe : Nat → Option (List Csv)) (timeout : Nat)
    (hnever : ∀ k, 10 * k ≤ timeout → opAttemptReady operatorName csvProbe k = false) :
    ∀ fuel k, waitOpAux operatorName csvProbe timeout fuel k (10 * k) = .ok .warnedNotReady := by
  intro fuel
  induction fuel with
  | zero => intro k; rfl
  | succ n ih =>
    intro k
    by_cases hc : 10 * k ≤ timeout
    · have step : waitOpAux operatorName csvProbe timeout (n + 1) k (10 * k)
          = waitOpAux operatorName csvProbe timeout n (k + 1) (10 * k + 10) := by
        simp [waitOpAux, hc, hnever k hc]
      rw [step]
      have harg : 10 * k + 10 = 10 * (k + 1) := by ring
      rw [harg]
      exact ih (k + 1)
    · simp [waitOpAux, hc]

/-- C7: when the CSV-phase probe never observes phase `Succeeded` for
the operator within the timeout budget (attempt k runs while its elapsed
time 10·k is ≤ timeout), the operator-readiness wait returns normally
with the warned outcome — and in general the wait never propagates any
error (in particular no Timeout) to its caller, so the subsequent
dependency installs and the add-on install proceed. -/
theorem c7_operator_timeout_warns_and_returns (operatorName : String)
    (csvProbe : Nat → Option (List Csv)) (timeout : Nat)
    (hnever : ∀ k, 10 * k ≤ timeout → opAttemptReady operatorName csvProbe k = false) :
    waitForOperatorReady operatorName csvProbe timeout = .ok .warnedNotReady
    ∧ ∀ (probeAny : Nat → Option (List Csv)), ∃ o,
        waitForOperatorReady operatorName probeAny timeout = .ok o := by
  constructor
  · have h := waitOpAux_never_ready operatorName csvProbe timeout hnever (timeout + 1) 0
    simpa [waitForOperatorReady] using h
  · intro probeAny
    exact waitForOperatorReady_isOk operatorName probeAny timeout

/-- CSV probe of the C7 witness: the matching CSV row is present but its
phase stays `Installing` forever. -/
def installingCsvProbe : Nat → Option (List Csv) :=
  fun _ => some [{ name := "authorino-operator.v1.1.1", phase := "Installing" }]

/-- Witness for C7 at the default 300-second timeout and 10-second
polling, with a CSV that never reaches `Succeeded`. -/
theorem c7_witness :
    (∀ k, 10 * k ≤ 300 → opAttemptReady "authorino-operator" installingCsvProbe k = false)
    ∧ (waitForOperatorReady "authorino-operator" installingCsvProbe 300
          = .ok .warnedNotReady
      ∧ ∀ (probeAny : Nat → Option (List Csv)), ∃ o,
          waitForOperatorReady "authorino-operator" probeAny 300 = .ok o) :=
  ⟨fun _ _ => rfl,
    c7_operator_timeout_warns_and_returns "authorino-operator" installingCsvProbe 300
      (fun _ _ => rfl)⟩

/-- The three dependency cycles of `_install_dependency_operators` emit
exactly the six install/wait events in the fixed order, for every CSV
probe behaviour (the readiness wait always returns normally). -/
theorem installDependencyOperators_events
    (csvProbes : String → Nat → Option (List Csv)) :
    installDependencyOperators csvProbes
      = [Ev.opInstall "authorino-operator", Ev.opWaitDone "authorino-operator",
         Ev.opInstall "servicemeshoperator", Ev.opWaitDone "servicemeshoperator",
         Ev.opInstall "serverless-operator", Ev.opWaitDone "serverless-operator"] := by
  obtain ⟨o1, h1⟩ := waitForOperatorReady_isOk "authorino-operator"
    (csvProbes "authorino-operator") 300
  obtain ⟨o2, h2⟩ := waitForOperatorReady_isOk "servicemeshoperator"
    (csvProbes "servicemeshoperator") 300
  obtain ⟨o3, h3⟩ := waitForOperatorReady_isOk "serverless-operator"
    (csvProbes "serverless-operator") 300
  simp [installDependencyOperators, dependencies, h1, h2, h3]

/-- C8: for every RHODS install invocation whose cluster resolution
succeeds and whose configuration sets `install_dependencies`, the event
trace begins with the cluster lookup followed by exactly three operator
install+wait cycles — each wait completing before the next install — in
the fixed order authorino-operator, servicemeshoperator,
serverless-operator, and only then the add-on installation request. -/
theorem c8_three_sequential_dependency_cycles (clusterName look : String)
    (csvProbes : String → Nat → Option (List Csv)) (addonProbe : Nat → String)
    (config : RHODSConfig) (hlook : look ≠ "")
    (hdeps : config.installDependencies = true) :
    ∃ rest, (installRhods clusterName look csvProbes addonProbe config).2
      = [Ev.lookupCluster clusterName,
         Ev.opInstall "authorino-operator", Ev.opWaitDone "authorino-operator",
         Ev.opInstall "servicemeshoperator", Ev.opWaitDone "servicemeshoperator",
         Ev.opInstall "serverless-operator", Ev.opWaitDone "serverless-operator",
         Ev.addonInstallRequest config.addonName] ++ rest := by
  have hl : (look == "") = false := by simp [hlook]
  have hdepev := installDependencyOperators_events csvProbes
  cases hw : waitForAddonReady addonProbe 3600 with
  | converged c sl =>
    refine ⟨[Ev.addonWaitDone config.addonName, Ev.sleepSecs 300], ?_⟩
    simp [installRhods, amGetClusterId, hl, hdeps, hdepev, hw]
  | opFailed s c sl =>
    refine ⟨[], ?_⟩
    simp [installRhods, amGetClusterId, hl, hdeps, hdepev, hw]
  | timedOut c sl =>
    refine ⟨[], ?_⟩
    simp [installRhods, amGetClusterId, hl, hdeps, hdepev, hw]

/-- The RHODS configuration of the C8 witness (the model defaults of
`RHODSConfig`). -/
def rhodsDemoConfig : RHODSConfig :=
  { addonName := "managed-odh", notificationEmail := "team@example.com",
    installDependencies := true }

/-- Witness for C8 at a concrete resolvable cluster, never-ready CSV
probes, and an immediately ready add-on probe. -/
theorem c8_witness :
    (("cid-1" : String) ≠ "" ∧ rhodsDemoConfig.installDependencies = true)
    ∧ ∃ rest, (installRhods "demo" "cid-1" (fun _ _ => none) (fun _ => "ready")
          rhodsDemoConfig).2
      = [Ev.lookupCluster "demo",
         Ev.opInstall "authorino-operator", Ev.opWaitDone "authorino-operator",
         Ev.opInstall "servicemeshoperator", Ev.opWaitDone "servicemeshoperator",
         Ev.opInstall "serverless-operator", Ev.opWaitDone "serverless-operator",
         Ev.addonInstallRequest rhodsDemoConfig.addonName] ++ rest :=
  ⟨⟨by decide, by decide⟩,
    c8_three_sequential_dependency_cycles "demo" "cid-1" (fun _ _ => none)
      (fun _ => "ready") rhodsDemoConfig (by decide) (by decide)⟩

/-- A `_get_cluster_id` call errors exactly when the cache field is not
truthy and the search output is empty. -/
theorem cmGetClusterId_error_iff (cached : Option String) (lookRes : String) :
    (cmGetClusterId cached lookRes).result = .error .notFound
      ↔ (pyTruthy cached = false ∧ lookRes = "") := by
  by_cases ht : pyTruthy cached = true
  · simp [cmGetClusterId, ht]
  · have ht2 : pyTruthy cached = false := by
      cases h : pyTruthy cached
      · rfl
      · exact absurd h ht
    by_cases hl : lookRes = ""
    · simp [cmGetClusterId, ht2, hl]
    · simp [cmGetClusterId, ht2, hl]

/-- The k-th resolution attempt of the deletion wait fails exactly when
the cache it inherits is not truthy and that attempt's search output is
empty. -/
theorem delResolveFailsAt_iff (look : Nat → String) (cached : Option String) (k : Nat) :
    delResolveFailsAt look cached k = true
      ↔ (pyTruthy (delCacheAt look cached k) = false ∧ look k = "") := by
  rw [delResolveFailsAt]
  constructor
  · intro h
    rcases hr : (cmGetClusterId (delCacheAt look cached k) (look k)).result with e | v
    · cases e
      exact (cmGetClusterId_error_iff _ _).mp hr
    · rw [hr] at h
      simp at h
  · intro hp
    have h2 := (cmGetClusterId_error_iff (delCacheAt look cached k) (look k)).mpr hp
    rw [h2]

/-- If the cache the k-th attempt inherits is not truthy, the wait
entered with a non-truthy cache and every earlier attempt's search output
was empty (a successful lookup would have made the cache truthy for
good). -/
theorem delCacheAt_not_truthy (look : Nat → String) (cached : Option String) :
    ∀ k, pyTruthy (delCacheAt look cached k) = false →
      pyTruthy cached = false ∧ ∀ j, j < k → look j = "" := by
  intro k
  induction k with
  | zero => intro h; exact ⟨h, fun j hj => absurd hj (by omega)⟩
  | succ n ih =>
    intro h
    rw [delCacheAt] at h
    by_cases ht : pyTruthy (delCacheAt look cached n) = true
    · rw [cmGetClusterId, if_pos ht] at h
      rw [ht] at h
      simp at h
    · have ht2 : pyTruthy (delCacheAt look cached n) = false := by
        cases hx : pyTruthy (delCacheAt look cached n)
        · rfl
        · exact absurd hx ht
      obtain ⟨hc, hprev⟩ := ih ht2
      by_cases hl : look n = ""
      · refine ⟨hc, fun j hj => ?_⟩
        rcases Nat.lt_or_ge j n with hjn | hjn
        · exact hprev j hjn
        · have : j = n := by omega
          rw [this]; exact hl
      · have hbeq : (look n == "") = false := by simp [hl]
        rw [cmGetClusterId, if_neg (by simp [ht2]), if_neg (by simp [hbeq])] at h
        simp [pyTruthy] at h
        exact absurd ((String.isEmpty_iff (look n)).mp h) hl

/-- With a truthy cache every resolution attempt is a cache hit, so the
deletion wait can only run out its budget and raise `TimeoutError`. -/
theorem waitDeletedAux_truthy (look : Nat → String) (timeout : Nat)
    (cached : Option String) (htr : pyTruthy cached = true) :
    ∀ fuel k count,
      (waitDeletedAux look timeout fuel k count cached).1 = .error .timeout := by
  intro fuel
  induction fuel with
  | zero => intro k count; rfl
  | succ n ih =>
    intro k count
    by_cases hc : count ≤ timeout
    · have step : waitDeletedAux look timeout (n + 1) k count cached
          = waitDeletedAux look timeout n (k + 1) (count + 60) cached := by
        simp [waitDeletedAux, hc, cmGetClusterId, htr]
      rw [step]
      exact ih (k + 1) (count + 60)
    · simp [waitDeletedAux, hc]

/-- Any error the deletion-wait loop produces is the timeout error. -/
theorem waitDeletedAux_error_timeout (look : Nat → String) (timeout : Nat) :
    ∀ fuel k count cached e,
      (waitDeletedAux look timeout fuel k count cached).1 = .error e →
        e = PollError.timeout := by
  intro fuel
  induction fuel with
  | zero =>
    intro k count cached e h
    simp [waitDeletedAux] at h
    exact h.symm
  | succ n ih =>
    intro k count cached e h
    by_cases hc : count ≤ timeout
    · rcases hr : (cmGetClusterId cached (look k)).result with e2 | v
      · rw [waitDeletedAux, if_pos hc, hr] at h
        simp at h
      · rw [waitDeletedAux, if_pos hc, hr] at h
        exact ih (k + 1) (count + 60) (cmGetClusterId cached (look k)).cached e h
    · rw [waitDeletedAux, if_neg hc] at h
      simp at h
      exact h.symm

/-- C1: for every resolution-oracle behaviour, entry cache state, and
timeout, the deletion wait — the poll loop `delete_cluster` runs after
submitting the deletion — returns successfully exactly when some
resolution attempt within the budget (attempt k runs at elapsed 60·k ≤
timeout) raises `NotFound`; absence is success, presence is the
continuing wait-state, and every other outcome is the `Timeout` error —
there is no other failure outcome. -/
theorem c1_deletion_wait_absence_is_success (look : Nat → String)
    (cached : Option String) (timeout : Nat) :
    ((waitForClusterDeleted look cached timeout).1 = .ok ()
      ↔ ∃ k, 60 * k ≤ timeout ∧ delResolveFailsAt look cached k = true)
    ∧ (∀ e, (waitForClusterDeleted look cached timeout).1 = .error e →
        e = PollError.timeout) := by
  constructor
  · constructor
    · intro hok
      by_cases ht : pyTruthy cached = true
      · have := waitDeletedAux_truthy look timeout cached ht (timeout + 1) 0 0
        rw [waitForClusterDeleted] at hok
        rw [this] at hok
        simp at hok
      · have ht2 : pyTruthy cached = false := by
          cases hx : pyTruthy cached
          · rfl
          · exact absurd hx ht
        by_cases hl : look 0 = ""
        · refine ⟨0, by omega, ?_⟩
          exact (delResolveFailsAt_iff look cached 0).mpr ⟨ht2, hl⟩
        · have hbeq : (look 0 == "") = false := by simp [hl]
          have hres : (cmGetClusterId cached (look 0)).result = .ok (look 0) := by
            rw [cmGetClusterId, if_neg (by simp [ht2]), if_neg (by simp [hbeq])]
          have hcac : (cmGetClusterId cached (look 0)).cached = some (look 0) := by
            rw [cmGetClusterId, if_neg (by simp [ht2]), if_neg (by simp [hbeq])]
          have htr2 : pyTruthy (some (look 0)) = true := by
            simp [pyTruthy, Bool.eq_false_iff, String.isEmpty_iff, hl]
          rw [waitForClusterDeleted, waitDeletedAux, if_pos (by omega : (0 : Nat) ≤ timeout),
            hres] at hok
          rw [hcac] at hok
          have := waitDeletedAux_truthy look timeout (some (look 0)) htr2 timeout 1 60
          rw [this] at hok
          simp at hok
    · intro hex
      obtain ⟨k, _, hfail⟩ := hex
      obtain ⟨hnt, hl0⟩ := delCacheAt_not_truthy look cached k
        ((delResolveFailsAt_iff look cached k).mp hfail).1
      have hlook0 : look 0 = "" := by
        rcases Nat.eq_zero_or_pos k with hk0 | hkpos
        · subst hk0
          exact ((delResolveFailsAt_iff look cached 0).mp hfail).2
        · exact hl0 0 hkpos
      have hres : (cmGetClusterId cached (look 0)).result = .error .notFound :=
        (cmGetClusterId_error_iff cached (look 0)).mpr ⟨hnt, hlook0⟩
      rw [waitForClusterDeleted, waitDeletedAux, if_pos (by omega : (0 : Nat) ≤ timeout),
        hres]
  · intro e he
    exact waitDeletedAux_error_timeout look timeout (timeout + 1) 0 0 cached e he

/-- Resolution oracle of the C1 witness: the search output is always
empty. -/
def emptyLook : Nat → String := fun _ => ""

/-- Witness for C1: after a cache-populating resolution (the state
`delete_cluster` leaves), no attempt ever fails and the wait times out;
the biconditional and the only-Timeout property hold at this concrete
input. -/
theorem c1_witness :
    ((waitForClusterDeleted emptyLook (some "cid-1") 120).1 = .ok ()
      ↔ ∃ k, 60 * k ≤ 120 ∧ delResolveFailsAt emptyLook (some "cid-1") k = true)
    ∧ (∀ e, (waitForClusterDeleted emptyLook (some "cid-1") 120).1 = .error e →
        e = PollError.timeout) :=
  c1_deletion_wait_absence_is_success emptyLook (some "cid-1") 120

end OCMUtils
